import Mathlib

/-!
Shallow embedding of the restaurant POS state container
(`src/src/context/AppContext.tsx`): an in-memory store of tables, chefs,
a cart and orders, with the mutation operations exposed by the context.
React `useState` updates are modelled as pure state-passing: each
operation is a function `AppState → AppState`.  The random order id
(`Math.random`) and the formatted wall-clock time (`toLocaleTimeString`)
are environment inputs and appear as explicit parameters of `createOrder`.
-/

namespace POS

/-- `OrderStatus` from AppContext.tsx line 4. -/
inductive OrderStatus where
  | Processing
  | Done
  | Served
  | NotPickedUp
  deriving DecidableEq, Repr

/-- `OrderType` from AppContext.tsx line 5. -/
inductive OrderType where
  | DineIn
  | TakeAway
  deriving DecidableEq, Repr

/-- Table status: `'Available' | 'Reserved'` (AppContext.tsx line 19). -/
inductive TableStatus where
  | Available
  | Reserved
  deriving DecidableEq, Repr

/-- `CartItem` (AppContext.tsx lines 7-13).  JS numbers carry only
integer values in this program, so they are modelled as `Int`. -/
structure CartItem where
  id : String
  name : String
  price : Int
  quantity : Int
  category : String
  deriving DecidableEq, Repr

/-- `Table` (AppContext.tsx lines 15-20). -/
structure Table where
  id : String
  name : String
  chairs : Int
  status : TableStatus
  deriving DecidableEq, Repr

/-- `Order` (AppContext.tsx lines 28-37). -/
structure Order where
  id : String
  tableId : String
  timestamp : String
  items : List CartItem
  status : OrderStatus
  type : OrderType
  duration : Int
  chefId : String
  deriving DecidableEq, Repr

/-- `Omit<Table, 'id'>`: the argument of `addTable` (AppContext.tsx line 53). -/
structure TableInput where
  name : String
  chairs : Int
  status : TableStatus
  deriving DecidableEq, Repr

/-- The four `useState` collections plus the order-type flag held by
`AppProvider` (AppContext.tsx lines 60-63).  The static chef seed list is
never read or written by any operation and is omitted. -/
structure AppState where
  tables : List Table
  orders : List Order
  cart : List CartItem
  orderType : OrderType
  deriving DecidableEq, Repr

/-- `setOrderType` (AppContext.tsx line 63): plain setter of the flag. -/
def setOrderType (s : AppState) (type : OrderType) : AppState :=
  { s with orderType := type }

/-- `addToCart` (AppContext.tsx lines 65-77). -/
def addToCart (s : AppState) (item : CartItem) : AppState :=
  match s.cart.find? (fun cartItem => cartItem.id == item.id) with
  | some _ =>
      { s with cart := s.cart.map (fun cartItem =>
          if cartItem.id = item.id then
            { cartItem with quantity := cartItem.quantity + 1 }
          else cartItem) }
  | none => { s with cart := s.cart ++ [{ item with quantity := 1 }] }

/-- `removeFromCart` (AppContext.tsx lines 79-81). -/
def removeFromCart (s : AppState) (id : String) : AppState :=
  { s with cart := s.cart.filter (fun item => item.id != id) }

/-- `updateItemQuantity` (AppContext.tsx lines 83-94). -/
def updateItemQuantity (s : AppState) (id : String) (quantity : Int) : AppState :=
  if quantity ≤ 0 then
    removeFromCart s id
  else
    { s with cart := s.cart.map (fun item =>
        if item.id = id then { item with quantity := quantity } else item) }

/-- `clearCart` (AppContext.tsx lines 96-98). -/
def clearCart (s : AppState) : AppState :=
  { s with cart := [] }

/-- `updateTableStatus` (AppContext.tsx lines 154-160). -/
def updateTableStatus (s : AppState) (tableId : String) (status : TableStatus) :
    AppState :=
  { s with tables := s.tables.map (fun table =>
      if table.id = tableId then { table with status := status } else table) }

/-- `createOrder` (AppContext.tsx lines 100-122).  `newId` stands for the
generated `` `#${Math.floor(100 + Math.random() * 900)}` `` and `now` for
the formatted `new Date().toLocaleTimeString(...)`; both are environment
inputs of the call.  `items: [...cart]` is the snapshot copy of the cart. -/
def createOrder (s : AppState) (tableId : String) (type : OrderType)
    (newId now : String) : AppState :=
  if s.cart.length = 0 then s
  else
    let newOrder : Order :=
      { id := newId, tableId := tableId, timestamp := now, items := s.cart,
        status := .Processing, type := type, duration := 0, chefId := "" }
    let s1 : AppState := { s with orders := s.orders ++ [newOrder] }
    let s2 : AppState :=
      if type = .DineIn then updateTableStatus s1 tableId .Reserved else s1
    clearCart s2

/-- `updateOrderStatus` (AppContext.tsx lines 124-136).  The `.map`
updates the status; the table side effect reads the pre-update closure
variable `orders`, i.e. looks the order up in `s.orders`. -/
def updateOrderStatus (s : AppState) (orderId : String) (status : OrderStatus) :
    AppState :=
  let s1 : AppState := { s with orders := s.orders.map (fun order =>
      if order.id = orderId then { order with status := status } else order) }
  match s.orders.find? (fun o => o.id == orderId) with
  | some order =>
      if status = .Served ∧ order.type = .DineIn then
        updateTableStatus s1 order.tableId .Available
      else s1
  | none => s1

/-- `assignChef` (AppContext.tsx lines 138-144). -/
def assignChef (s : AppState) (orderId chefId : String) : AppState :=
  { s with orders := s.orders.map (fun order =>
      if order.id = orderId then { order with chefId := chefId } else order) }

/-- JS `String.prototype.padStart(len, c)` for a single pad character. -/
def padStart (s : String) (len : Nat) (c : Char) : String :=
  String.mk (List.replicate (len - s.length) c) ++ s

/-- `addTable` (AppContext.tsx lines 146-152): the new id is
`` `${tables.length + 1}`.padStart(2, '0') ``. -/
def addTable (s : AppState) (table : TableInput) : AppState :=
  let newTable : Table :=
    { id := padStart (toString (s.tables.length + 1)) 2 '0',
      name := table.name, chairs := table.chairs, status := table.status }
  { s with tables := s.tables ++ [newTable] }

/-- One call to any operation of the store, with its arguments (and, for
`createOrder`, the environment inputs of that call). -/
inductive Op where
  | setOrderType (type : OrderType)
  | addToCart (item : CartItem)
  | removeFromCart (id : String)
  | updateItemQuantity (id : String) (quantity : Int)
  | clearCart
  | createOrder (tableId : String) (type : OrderType) (newId now : String)
  | updateOrderStatus (orderId : String) (status : OrderStatus)
  | assignChef (orderId chefId : String)
  | addTable (table : TableInput)
  | updateTableStatus (tableId : String) (status : TableStatus)
  deriving DecidableEq, Repr

/-- Interpretation of one operation call on the store state. -/
def Op.apply : Op → AppState → AppState
  | .setOrderType type, s => POS.setOrderType s type
  | .addToCart item, s => POS.addToCart s item
  | .removeFromCart id, s => POS.removeFromCart s id
  | .updateItemQuantity id quantity, s => POS.updateItemQuantity s id quantity
  | .clearCart, s => POS.clearCart s
  | .createOrder tableId type newId now, s =>
      POS.createOrder s tableId type newId now
  | .updateOrderStatus orderId status, s =>
      POS.updateOrderStatus s orderId status
  | .assignChef orderId chefId, s => POS.assignChef s orderId chefId
  | .addTable table, s => POS.addTable s table
  | .updateTableStatus tableId status, s =>
      POS.updateTableStatus s tableId status

/-- Run a sequence of operation calls left to right. -/
def runOps (s : AppState) : List Op → AppState
  | [] => s
  | op :: rest => runOps (op.apply s) rest

/-- The initial store state (AppContext.tsx lines 60-63): tables seeded
from external static data, orders and cart empty, flag `'Dine In'`. -/
def initState (seedTables : List Table) : AppState :=
  { tables := seedTables, orders := [], cart := [], orderType := .DineIn }

/-- The four cart-mutating operations named by the snapshot property. -/
def Op.isCartOp : Op → Bool
  | .addToCart _ => true
  | .removeFromCart _ => true
  | .updateItemQuantity _ _ => true
  | .clearCart => true
  | _ => false

/-- `setOrderType` calls, for the noninterference statement. -/
def Op.isSetOrderType : Op → Bool
  | .setOrderType _ => true
  | _ => false

/-! ### Helper lemmas shared between claims -/

/-- A cart-mutating operation leaves the order list and the table list
untouched. -/
theorem cartOp_frame (op : Op) (s : AppState) (h : op.isCartOp = true) :
    (op.apply s).orders = s.orders ∧ (op.apply s).tables = s.tables := by
  cases op with
  | addToCart item =>
      simp only [Op.apply]
      unfold POS.addToCart
      cases s.cart.find? (fun cartItem => cartItem.id == item.id) <;> exact ⟨rfl, rfl⟩
  | removeFromCart id => exact ⟨rfl, rfl⟩
  | updateItemQuantity id quantity =>
      simp only [Op.apply]
      unfold POS.updateItemQuantity
      split <;> exact ⟨rfl, rfl⟩
  | clearCart => exact ⟨rfl, rfl⟩
  | _ => exact Bool.noConfusion h

/-- `updateOrderStatus` replaces the order list by the `.map` over the old
one; the table side effect never touches the order list. -/
theorem updateOrderStatus_orders (s : AppState) (orderId : String)
    (st : OrderStatus) :
    (updateOrderStatus s orderId st).orders =
      s.orders.map (fun order =>
        if order.id = orderId then { order with status := st } else order) := by
  unfold updateOrderStatus
  cases s.orders.find? (fun o => o.id == orderId) with
  | none => rfl
  | some o =>
      dsimp only
      split <;> rfl

/-- With a non-empty cart, `createOrder` appends exactly the one new
order record to the order list. -/
theorem createOrder_orders (s : AppState) (tableId : String)
    (type : OrderType) (newId now : String) (h : ¬ s.cart.length = 0) :
    (createOrder s tableId type newId now).orders =
      s.orders ++ [{ id := newId, tableId := tableId, timestamp := now,
                     items := s.cart, status := .Processing, type := type,
                     duration := 0, chefId := "" }] := by
  unfold createOrder
  rw [if_neg h]
  dsimp only
  split <;> rfl

/-- `updateOrderStatus` leaves the cart unchanged. -/
theorem updateOrderStatus_cart (s : AppState) (orderId : String)
    (st : OrderStatus) : (updateOrderStatus s orderId st).cart = s.cart := by
  unfold updateOrderStatus
  cases s.orders.find? (fun o => o.id == orderId) with
  | none => rfl
  | some o =>
      dsimp only
      split <;> rfl

/-! ### Claims -/

/-- C5: `createOrder` on a state with an empty cart is a complete no-op:
the state (orders, tables, cart, flag) is returned unchanged, for every
`tableId` and `type`, and no error is raised (the function is total). -/
theorem createOrder_empty_cart_noop (s : AppState) (tableId : String)
    (type : OrderType) (newId now : String) (h : s.cart = []) :
    createOrder s tableId type newId now = s := by
  simp [createOrder, h]

/-- Witness for C5 at a concrete state with an empty cart. -/
theorem createOrder_empty_cart_noop_witness :
    (⟨[⟨"01", "T1", 4, .Available⟩], [], [], .DineIn⟩ : AppState).cart = []
    ∧ createOrder ⟨[⟨"01", "T1", 4, .Available⟩], [], [], .DineIn⟩ "01"
        OrderType.DineIn "#123" "12:00"
      = ⟨[⟨"01", "T1", 4, .Available⟩], [], [], .DineIn⟩ :=
  ⟨rfl, createOrder_empty_cart_noop _ "01" .DineIn "#123" "12:00" rfl⟩

/-- C6: with a non-empty cart, `createOrder(tableId, 'Take Away')` leaves
the table list entirely unchanged, while still appending the one new order
(with the cart snapshot) and clearing the cart. -/
theorem createOrder_takeaway_spec (s : AppState) (tableId newId now : String)
    (h : s.cart ≠ []) :
    (createOrder s tableId .TakeAway newId now).tables = s.tables
    ∧ (createOrder s tableId .TakeAway newId now).orders =
        s.orders ++ [{ id := newId, tableId := tableId, timestamp := now,
                       items := s.cart, status := .Processing,
                       type := .TakeAway, duration := 0, chefId := "" }]
    ∧ (createOrder s tableId .TakeAway newId now).cart = [] := by
  have hl : ¬ s.cart.length = 0 := by simpa [List.length_eq_zero] using h
  simp [createOrder, hl, clearCart]

/-- Witness for C6 at a concrete state with one cart item. -/
theorem createOrder_takeaway_witness :
    (⟨[⟨"01", "T1", 4, .Available⟩], [],
        [⟨"i1", "Soup", 5, 1, "Starter"⟩], .DineIn⟩ : AppState).cart ≠ []
    ∧ ((createOrder ⟨[⟨"01", "T1", 4, .Available⟩], [],
          [⟨"i1", "Soup", 5, 1, "Starter"⟩], .DineIn⟩ "01" .TakeAway
          "#200" "10:30").tables
        = (⟨[⟨"01", "T1", 4, .Available⟩], [],
            [⟨"i1", "Soup", 5, 1, "Starter"⟩], .DineIn⟩ : AppState).tables
      ∧ (createOrder ⟨[⟨"01", "T1", 4, .Available⟩], [],
          [⟨"i1", "Soup", 5, 1, "Starter"⟩], .DineIn⟩ "01" .TakeAway
          "#200" "10:30").orders
        = (⟨[⟨"01", "T1", 4, .Available⟩], [],
            [⟨"i1", "Soup", 5, 1, "Starter"⟩], .DineIn⟩ : AppState).orders
          ++ [{ id := "#200", tableId := "01", timestamp := "10:30",
                items := (⟨[⟨"01", "T1", 4, .Available⟩], [],
                           [⟨"i1", "Soup", 5, 1, "Starter"⟩],
                           .DineIn⟩ : AppState).cart,
                status := .Processing, type := .TakeAway,
                duration := 0, chefId := "" }]
      ∧ (createOrder ⟨[⟨"01", "T1", 4, .Available⟩], [],
          [⟨"i1", "Soup", 5, 1, "Starter"⟩], .DineIn⟩ "01" .TakeAway
          "#200" "10:30").cart = []) :=
  ⟨by decide, createOrder_takeaway_spec _ "01" "#200" "10:30" (by decide)⟩

/-- C7: `addTable` appends exactly one table whose id is the decimal
string of (current count + 1) left-padded with '0' to minimum width 2
("10" with 9 existing tables, "01" with 0, "100" with 99), carrying the
supplied name, chairs and status; every existing table is kept unchanged
(the old list is a prefix of the new one), and orders and cart are
untouched.  No duplicate-id check appears anywhere: the equality holds
unconditionally. -/
theorem addTable_spec (s : AppState) (t : TableInput) :
    (addTable s t).tables =
      s.tables ++ [{ id := padStart (toString (s.tables.length + 1)) 2 '0',
                     name := t.name, chairs := t.chairs, status := t.status }]
    ∧ (s.tables.length = 9 →
        (addTable s t).tables.getLast? =
          some { id := "10", name := t.name, chairs := t.chairs,
                 status := t.status })
    ∧ (s.tables.length = 0 →
        (addTable s t).tables =
          [{ id := "01", name := t.name, chairs := t.chairs,
             status := t.status }])
    ∧ (s.tables.length = 99 →
        (addTable s t).tables.getLast? =
          some { id := "100", name := t.name, chairs := t.chairs,
                 status := t.status })
    ∧ (addTable s t).orders = s.orders ∧ (addTable s t).cart = s.cart := by
  have h10 : padStart (toString (9 + 1 : Nat)) 2 '0' = "10" := by decide
  have h01 : padStart (toString (0 + 1 : Nat)) 2 '0' = "01" := by decide
  have h100 : padStart (toString (99 + 1 : Nat)) 2 '0' = "100" := by decide
  refine ⟨rfl, ?_, ?_, ?_, rfl, rfl⟩
  · intro h
    simp [addTable, h, h10]
  · intro h
    have : s.tables = [] := List.length_eq_zero.mp h
    simp [addTable, this, h01]
  · intro h
    simp [addTable, h, h100]

/-- Witness for C7: discharging the length-9, length-0 and length-99
premises needs three states; the length-0 case is taken here, the others
are consequences of the same unconditional first conjunct. -/
theorem addTable_witness :
    ((⟨[], [], [], .DineIn⟩ : AppState).tables.length = 0)
    ∧ (addTable ⟨[], [], [], .DineIn⟩ ⟨"T5", 4, .Available⟩).tables =
        [{ id := "01", name := "T5", chairs := 4, status := .Available }] :=
  ⟨rfl, (addTable_spec ⟨[], [], [], .DineIn⟩ ⟨"T5", 4, .Available⟩).2.2.1 rfl⟩

/-- C10: the `orderType` flag set by `setOrderType` influences no other
operation: two states that agree on tables, orders and cart (differing at
most in the flag) are mapped by every non-`setOrderType` operation to
states with identical tables, orders and cart.  In particular
`createOrder` uses only its explicit `type` argument. -/
theorem orderType_noninterference (s1 s2 : AppState) (op : Op)
    (ht : s1.tables = s2.tables) (ho : s1.orders = s2.orders)
    (hc : s1.cart = s2.cart) (hop : op.isSetOrderType = false) :
    (op.apply s1).tables = (op.apply s2).tables
    ∧ (op.apply s1).orders = (op.apply s2).orders
    ∧ (op.apply s1).cart = (op.apply s2).cart := by
  cases op with
  | setOrderType type => exact Bool.noConfusion hop
  | addToCart item =>
      simp only [Op.apply]
      unfold POS.addToCart
      rw [ht, ho, hc]
      cases s2.cart.find? (fun cartItem => cartItem.id == item.id) <;>
        exact ⟨rfl, rfl, rfl⟩
  | removeFromCart id =>
      exact ⟨by simp [Op.apply, POS.removeFromCart, ht],
             by simp [Op.apply, POS.removeFromCart, ho],
             by simp [Op.apply, POS.removeFromCart, hc]⟩
  | updateItemQuantity id quantity =>
      simp only [Op.apply]
      unfold POS.updateItemQuantity POS.removeFromCart
      rw [ht, ho, hc]
      split <;> exact ⟨rfl, rfl, rfl⟩
  | clearCart => exact ⟨by simp [Op.apply, POS.clearCart, ht],
                        by simp [Op.apply, POS.clearCart, ho], rfl⟩
  | createOrder tableId type newId now =>
      simp only [Op.apply]
      unfold POS.createOrder POS.updateTableStatus POS.clearCart
      rw [ht, ho, hc]
      split
      · exact ⟨ht, ho, hc⟩
      · split <;> exact ⟨rfl, rfl, rfl⟩
  | updateOrderStatus orderId status =>
      simp only [Op.apply]
      unfold POS.updateOrderStatus POS.updateTableStatus
      rw [ht, ho]
      cases s2.orders.find? (fun o => o.id == orderId) with
      | none => exact ⟨rfl, rfl, hc⟩
      | some o =>
          dsimp only
          split <;> exact ⟨rfl, rfl, hc⟩
  | assignChef orderId chefId =>
      exact ⟨by simp [Op.apply, POS.assignChef, ht],
             by simp [Op.apply, POS.assignChef, ho],
             by simp [Op.apply, POS.assignChef, hc]⟩
  | addTable table =>
      exact ⟨by simp [Op.apply, POS.addTable, ht],
             by simp [Op.apply, POS.addTable, ho],
             by simp [Op.apply, POS.addTable, hc]⟩
  | updateTableStatus tableId status =>
      exact ⟨by simp [Op.apply, POS.updateTableStatus, ht],
             by simp [Op.apply, POS.updateTableStatus, ho],
             by simp [Op.apply, POS.updateTableStatus, hc]⟩

/-- Witness for C10: two concrete states differing only in the flag,
mapped by a concrete `createOrder` call. -/
theorem orderType_noninterference_witness :
    ((⟨[⟨"01", "T1", 4, .Available⟩], [], [⟨"i1", "Soup", 5, 1, "Starter"⟩],
        .DineIn⟩ : AppState).tables
      = (⟨[⟨"01", "T1", 4, .Available⟩], [], [⟨"i1", "Soup", 5, 1, "Starter"⟩],
          .TakeAway⟩ : AppState).tables)
    ∧ ((Op.createOrder "01" .DineIn "#300" "09:00").apply
          ⟨[⟨"01", "T1", 4, .Available⟩], [], [⟨"i1", "Soup", 5, 1, "Starter"⟩],
            .DineIn⟩).tables
      = ((Op.createOrder "01" .DineIn "#300" "09:00").apply
          ⟨[⟨"01", "T1", 4, .Available⟩], [], [⟨"i1", "Soup", 5, 1, "Starter"⟩],
            .TakeAway⟩).tables :=
  ⟨rfl, (orderType_noninterference _ _ (Op.createOrder "01" .DineIn "#300" "09:00")
      rfl rfl rfl rfl).1⟩

/-- C2: `updateOrderStatus(orderId, 'Served')` on a state containing an
order with that id (witnessed by the pre-update lookup `find?` returning
`o`) sets every order carrying the id to `'Served'`; if `o.type` is
`'Dine In'` the tables with id `o.tableId` are set to `'Available'`, and
if `o.type` is `'Take Away'` the table list is completely unchanged.  The
side effect is keyed on `o`, the order found in the order collection as
it was before the status update. -/
theorem updateOrderStatus_served_spec (s : AppState) (orderId : String)
    (o : Order) (hfind : s.orders.find? (fun o' => o'.id == orderId) = some o) :
    (∀ i : Nat, (updateOrderStatus s orderId .Served).orders[i]? =
        (s.orders[i]?).map (fun order =>
          if order.id = orderId then { order with status := .Served }
          else order))
    ∧ (o.type = .DineIn →
        (updateOrderStatus s orderId .Served).tables =
          s.tables.map (fun table =>
            if table.id = o.tableId then { table with status := .Available }
            else table))
    ∧ (o.type = .TakeAway →
        (updateOrderStatus s orderId .Served).tables = s.tables) := by
  refine ⟨?_, ?_, ?_⟩
  · intro i
    rw [updateOrderStatus_orders, List.getElem?_map]
  · intro hty
    unfold updateOrderStatus
    rw [hfind]
    dsimp only
    rw [if_pos ⟨rfl, hty⟩]
    rfl
  · intro hty
    unfold updateOrderStatus
    rw [hfind]
    dsimp only
    rw [if_neg (by rintro ⟨-, h2⟩; rw [hty] at h2; exact absurd h2 (by decide))]

/-- Witness for C2 at a one-order Dine-In state. -/
theorem updateOrderStatus_served_witness :
    ((⟨[⟨"01", "T1", 4, .Reserved⟩],
        [⟨"#100", "01", "12:00", [], .Processing, .DineIn, 0, ""⟩], [],
        .DineIn⟩ : AppState).orders.find? (fun o' => o'.id == "#100")
      = some ⟨"#100", "01", "12:00", [], .Processing, .DineIn, 0, ""⟩)
    ∧ (updateOrderStatus
        ⟨[⟨"01", "T1", 4, .Reserved⟩],
          [⟨"#100", "01", "12:00", [], .Processing, .DineIn, 0, ""⟩], [],
          .DineIn⟩ "#100" .Served).tables =
      (⟨[⟨"01", "T1", 4, .Reserved⟩],
          [⟨"#100", "01", "12:00", [], .Processing, .DineIn, 0, ""⟩], [],
          .DineIn⟩ : AppState).tables.map (fun table =>
        if table.id = "01" then { table with status := .Available }
        else table) :=
  ⟨by decide,
   (updateOrderStatus_served_spec _ "#100"
      ⟨"#100", "01", "12:00", [], .Processing, .DineIn, 0, ""⟩
      (by decide)).2.1 rfl⟩

/-- C8: when two distinct positions of the order list hold orders with
the same id, `updateOrderStatus` sets the status of both and `assignChef`
sets the chefId of both, because both updates `.map` over the order list
matching by id. -/
theorem duplicate_order_id_both_updated (s : AppState) (oid : String)
    (st : OrderStatus) (cid : String) (i j : Nat) (_hij : i ≠ j)
    (oi oj : Order) (hoi : s.orders[i]? = some oi) (hoj : s.orders[j]? = some oj)
    (hidi : oi.id = oid) (hidj : oj.id = oid) :
    ((updateOrderStatus s oid st).orders[i]? = some { oi with status := st })
    ∧ ((updateOrderStatus s oid st).orders[j]? = some { oj with status := st })
    ∧ ((assignChef s oid cid).orders[i]? = some { oi with chefId := cid })
    ∧ ((assignChef s oid cid).orders[j]? = some { oj with chefId := cid }) := by
  refine ⟨?_, ?_, ?_, ?_⟩
  · rw [updateOrderStatus_orders, List.getElem?_map, hoi]
    simp [hidi]
  · rw [updateOrderStatus_orders, List.getElem?_map, hoj]
    simp [hidj]
  · show (s.orders.map _)[i]? = _
    rw [List.getElem?_map, hoi]
    simp [hidi]
  · show (s.orders.map _)[j]? = _
    rw [List.getElem?_map, hoj]
    simp [hidj]

/-- Witness for C8 at a state holding two orders that share id "#100". -/
theorem duplicate_order_id_both_updated_witness :
    ((0 : Nat) ≠ 1
      ∧ (⟨[], [⟨"#100", "01", "12:00", [], .Processing, .DineIn, 0, ""⟩,
             ⟨"#100", "02", "12:05", [], .Processing, .TakeAway, 0, ""⟩], [],
           .DineIn⟩ : AppState).orders[0]?
        = some ⟨"#100", "01", "12:00", [], .Processing, .DineIn, 0, ""⟩
      ∧ (⟨[], [⟨"#100", "01", "12:00", [], .Processing, .DineIn, 0, ""⟩,
             ⟨"#100", "02", "12:05", [], .Processing, .TakeAway, 0, ""⟩], [],
           .DineIn⟩ : AppState).orders[1]?
        = some ⟨"#100", "02", "12:05", [], .Processing, .TakeAway, 0, ""⟩)
    ∧ ((updateOrderStatus
          ⟨[], [⟨"#100", "01", "12:00", [], .Processing, .DineIn, 0, ""⟩,
                ⟨"#100", "02", "12:05", [], .Processing, .TakeAway, 0, ""⟩], [],
            .DineIn⟩ "#100" .Done).orders[0]?
        = some ⟨"#100", "01", "12:00", [], .Done, .DineIn, 0, ""⟩
      ∧ (updateOrderStatus
          ⟨[], [⟨"#100", "01", "12:00", [], .Processing, .DineIn, 0, ""⟩,
                ⟨"#100", "02", "12:05", [], .Processing, .TakeAway, 0, ""⟩], [],
            .DineIn⟩ "#100" .Done).orders[1]?
        = some ⟨"#100", "02", "12:05", [], .Done, .TakeAway, 0, ""⟩
      ∧ (assignChef
          ⟨[], [⟨"#100", "01", "12:00", [], .Processing, .DineIn, 0, ""⟩,
                ⟨"#100", "02", "12:05", [], .Processing, .TakeAway, 0, ""⟩], [],
            .DineIn⟩ "#100" "c1").orders[0]?
        = some ⟨"#100", "01", "12:00", [], .Processing, .DineIn, 0, "c1"⟩
      ∧ (assignChef
          ⟨[], [⟨"#100", "01", "12:00", [], .Processing, .DineIn, 0, ""⟩,
                ⟨"#100", "02", "12:05", [], .Processing, .TakeAway, 0, ""⟩], [],
            .DineIn⟩ "#100" "c1").orders[1]?
        = some ⟨"#100", "02", "12:05", [], .Processing, .TakeAway, 0, "c1"⟩) :=
  ⟨⟨by decide, by decide, by decide⟩,
   duplicate_order_id_both_updated _ "#100" .Done "c1" 0 1 (by decide)
     ⟨"#100", "01", "12:00", [], .Processing, .DineIn, 0, ""⟩
     ⟨"#100", "02", "12:05", [], .Processing, .TakeAway, 0, ""⟩
     (by decide) (by decide) rfl rfl⟩

/-- C1: `createOrder(tableId, 'Dine In')` with a non-empty cart appends
exactly one order whose fields are the given arguments, the cart snapshot,
status `'Processing'`, duration 0 and empty chefId; the tables with the
given id are set to `'Reserved'`; the cart is emptied; and the new order's
`items` are a snapshot: no subsequent `addToCart`, `removeFromCart`,
`updateItemQuantity` or `clearCart` call changes the order list at all. -/
theorem createOrder_dinein_spec (s : AppState) (tableId newId now : String)
    (h : s.cart ≠ []) :
    (createOrder s tableId .DineIn newId now).orders.length =
      s.orders.length + 1
    ∧ (createOrder s tableId .DineIn newId now).orders =
        s.orders ++ [{ id := newId, tableId := tableId, timestamp := now,
                       items := s.cart, status := .Processing,
                       type := .DineIn, duration := 0, chefId := "" }]
    ∧ (createOrder s tableId .DineIn newId now).tables =
        s.tables.map (fun table =>
          if table.id = tableId then { table with status := .Reserved }
          else table)
    ∧ (createOrder s tableId .DineIn newId now).cart = []
    ∧ (∀ op : Op, op.isCartOp = true →
        (op.apply (createOrder s tableId .DineIn newId now)).orders =
          (createOrder s tableId .DineIn newId now).orders) := by
  have hl : ¬ s.cart.length = 0 := by simpa [List.length_eq_zero] using h
  refine ⟨?_, ?_, ?_, ?_, fun op hop => (cartOp_frame op _ hop).1⟩
  all_goals simp [createOrder, hl, clearCart, updateTableStatus]

/-- Witness for C1 at the §8 scenario state: one table "01", one cart
item, `createOrder("01", 'Dine In')`. -/
theorem createOrder_dinein_witness :
    (⟨[⟨"01", "T1", 4, .Available⟩], [],
        [⟨"i1", "Soup", 5, 1, "Starter"⟩], .DineIn⟩ : AppState).cart ≠ []
    ∧ (createOrder ⟨[⟨"01", "T1", 4, .Available⟩], [],
          [⟨"i1", "Soup", 5, 1, "Starter"⟩], .DineIn⟩ "01" .DineIn
          "#100" "12:00").orders
      = [⟨"#100", "01", "12:00", [⟨"i1", "Soup", 5, 1, "Starter"⟩],
           .Processing, .DineIn, 0, ""⟩]
    ∧ (createOrder ⟨[⟨"01", "T1", 4, .Available⟩], [],
          [⟨"i1", "Soup", 5, 1, "Starter"⟩], .DineIn⟩ "01" .DineIn
          "#100" "12:00").tables = [⟨"01", "T1", 4, .Reserved⟩]
    ∧ (createOrder ⟨[⟨"01", "T1", 4, .Available⟩], [],
          [⟨"i1", "Soup", 5, 1, "Starter"⟩], .DineIn⟩ "01" .DineIn
          "#100" "12:00").cart = []
    ∧ ((Op.addToCart ⟨"i2", "Tea", 2, 1, "Drink"⟩).apply
          (createOrder ⟨[⟨"01", "T1", 4, .Available⟩], [],
            [⟨"i1", "Soup", 5, 1, "Starter"⟩], .DineIn⟩ "01" .DineIn
            "#100" "12:00")).orders
      = (createOrder ⟨[⟨"01", "T1", 4, .Available⟩], [],
          [⟨"i1", "Soup", 5, 1, "Starter"⟩], .DineIn⟩ "01" .DineIn
          "#100" "12:00").orders := by
  have hs := createOrder_dinein_spec
    ⟨[⟨"01", "T1", 4, .Available⟩], [], [⟨"i1", "Soup", 5, 1, "Starter"⟩],
      .DineIn⟩ "01" "#100" "12:00" (by decide)
  exact ⟨by decide, by rw [hs.2.1]; rfl, by rw [hs.2.2.1]; rfl, hs.2.2.2.1,
    hs.2.2.2.2 (Op.addToCart ⟨"i2", "Tea", 2, 1, "Drink"⟩) rfl⟩

/-- Every operation keeps the cart ids pairwise distinct. -/
theorem cart_ids_nodup_step (op : Op) (s : AppState)
    (h : (s.cart.map CartItem.id).Nodup) :
    (((op.apply s).cart).map CartItem.id).Nodup := by
  cases op with
  | setOrderType type => exact h
  | addToCart item =>
      simp only [Op.apply]
      unfold POS.addToCart
      cases hf : s.cart.find? (fun cartItem => cartItem.id == item.id) with
      | none =>
          dsimp only
          rw [List.map_append]
          refine List.Nodup.append h (List.nodup_singleton _) ?_
          intro a ha hb
          rw [List.map_singleton, List.mem_singleton] at hb
          subst hb
          rcases List.mem_map.mp ha with ⟨c, hc, hcid⟩
          exact List.find?_eq_none.mp hf c hc (by simp [hcid])
      | some c0 =>
          dsimp only
          rw [List.map_map]
          have heq : s.cart.map (CartItem.id ∘ (fun cartItem =>
              if cartItem.id = item.id
              then { cartItem with quantity := cartItem.quantity + 1 }
              else cartItem)) = s.cart.map CartItem.id := by
            apply List.map_congr_left
            intro a _
            show CartItem.id (if a.id = item.id then _ else a) = a.id
            split <;> rfl
          rw [heq]
          exact h
  | removeFromCart id =>
      exact h.sublist ((List.filter_sublist s.cart).map CartItem.id)
  | updateItemQuantity id quantity =>
      simp only [Op.apply]
      unfold POS.updateItemQuantity
      split
      · exact h.sublist ((List.filter_sublist s.cart).map CartItem.id)
      · rw [List.map_map]
        have heq : s.cart.map (CartItem.id ∘ (fun item =>
            if item.id = id then { item with quantity := quantity }
            else item)) = s.cart.map CartItem.id := by
          apply List.map_congr_left
          intro a _
          show CartItem.id (if a.id = id then _ else a) = a.id
          split <;> rfl
        rw [heq]
        exact h
  | clearCart => simp [Op.apply, POS.clearCart]
  | createOrder tableId type newId now =>
      simp only [Op.apply]
      unfold POS.createOrder
      split
      · exact h
      · simp [POS.clearCart]
  | updateOrderStatus orderId status =>
      rw [show ((Op.updateOrderStatus orderId status).apply s).cart = s.cart
        from updateOrderStatus_cart s orderId status]
      exact h
  | assignChef orderId chefId => exact h
  | addTable table => exact h
  | updateTableStatus tableId status => exact h

/-- Running any operation sequence from a state with pairwise-distinct
cart ids keeps them pairwise distinct. -/
theorem cart_ids_nodup_run (ops : List Op) (s : AppState)
    (h : (s.cart.map CartItem.id).Nodup) :
    (((runOps s ops).cart).map CartItem.id).Nodup := by
  induction ops generalizing s with
  | nil => exact h
  | cons op rest ih => exact ih _ (cart_ids_nodup_step op s h)

/-- If the cart is a single entry whose id matches the added item, the add
increments that entry's quantity and changes nothing else. -/
theorem addToCart_singleton (t : AppState) (item2 c : CartItem)
    (h1 : t.cart = [c]) (h2 : c.id = item2.id) :
    (addToCart t item2).cart = [{ c with quantity := c.quantity + 1 }] := by
  unfold addToCart
  rw [h1]
  simp [h2]

/-- C3: `addToCart(item)` with no entry of the same id appends the item
with quantity forced to 1; with an existing entry of the same id it
increments only that entry's quantity (all other fields of every entry,
and every other entry, preserved, and every field of the supplied item
other than its id ignored); adding the same id twice to an empty cart
yields one entry with quantity 2 carrying the first add's fields; and in
every reachable state the cart ids are pairwise distinct. -/
theorem addToCart_spec (s : AppState) (item : CartItem) :
    ((∀ c ∈ s.cart, c.id ≠ item.id) →
        (addToCart s item).cart = s.cart ++ [{ item with quantity := 1 }])
    ∧ ((∃ c ∈ s.cart, c.id = item.id) →
        ∀ i : Nat, (addToCart s item).cart[i]? =
          (s.cart[i]?).map (fun cartItem =>
            if cartItem.id = item.id
            then { cartItem with quantity := cartItem.quantity + 1 }
            else cartItem))
    ∧ (∀ item2 : CartItem, item2.id = item.id → s.cart = [] →
        (addToCart (addToCart s item) item2).cart =
          [{ item with quantity := 2 }])
    ∧ (∀ (seedTables : List Table) (ops : List Op),
        ((runOps (initState seedTables) ops).cart.map CartItem.id).Nodup) := by
  refine ⟨?_, ?_, ?_, ?_⟩
  · intro hnone
    have hf : s.cart.find? (fun cartItem => cartItem.id == item.id) = none :=
      List.find?_eq_none.mpr (fun c hc => by simp [hnone c hc])
    unfold addToCart
    rw [hf]
  · rintro ⟨c, hc, hcid⟩ i
    cases hf : s.cart.find? (fun cartItem => cartItem.id == item.id) with
    | none => exact absurd (by simp [hcid]) (List.find?_eq_none.mp hf c hc)
    | some c0 =>
        unfold addToCart
        rw [hf]
        dsimp only
        rw [List.getElem?_map]
  · intro item2 h2 hcart
    have h1 : (addToCart s item).cart = [{ item with quantity := 1 }] := by
      unfold addToCart
      rw [hcart]
      simp
    rw [addToCart_singleton _ item2 { item with quantity := 1 } h1 h2.symm]
    norm_num
  · intro seedTables ops
    exact cart_ids_nodup_run ops _ (by simp [initState])

/-- Witness for C3: the same id added twice to an empty cart, the second
time with a junk quantity of 7, gives one entry with quantity 2. -/
theorem addToCart_witness :
    ((⟨"i1", "Soup", 5, 7, "Starter"⟩ : CartItem).id =
        (⟨"i1", "Soup", 5, 1, "Starter"⟩ : CartItem).id
      ∧ (⟨[], [], [], .DineIn⟩ : AppState).cart = [])
    ∧ (addToCart (addToCart ⟨[], [], [], .DineIn⟩
          ⟨"i1", "Soup", 5, 1, "Starter"⟩)
        ⟨"i1", "Soup", 5, 7, "Starter"⟩).cart =
      [⟨"i1", "Soup", 5, 2, "Starter"⟩] :=
  ⟨⟨rfl, rfl⟩,
   (addToCart_spec ⟨[], [], [], .DineIn⟩ ⟨"i1", "Soup", 5, 1, "Starter"⟩).2.2.1
     ⟨"i1", "Soup", 5, 7, "Starter"⟩ rfl rfl⟩

/-- C4: `updateItemQuantity(id, quantity)` with `quantity ≤ 0` removes
every entry with that id and keeps the others (a no-op if the id is
absent); with `quantity > 0` it sets the matching entry's quantity to
exactly the given value, preserving its other fields and every other
entry, and is a no-op when no entry has the id. -/
theorem updateItemQuantity_spec (s : AppState) (id : String) (q : Int) :
    (q ≤ 0 →
        (updateItemQuantity s id q).cart =
          s.cart.filter (fun item => item.id != id)
        ∧ ∀ c ∈ (updateItemQuantity s id q).cart, c.id ≠ id)
    ∧ (q ≤ 0 → (∀ c ∈ s.cart, c.id ≠ id) →
        (updateItemQuantity s id q).cart = s.cart)
    ∧ (0 < q →
        ∀ i : Nat, (updateItemQuantity s id q).cart[i]? =
          (s.cart[i]?).map (fun item =>
            if item.id = id then { item with quantity := q } else item))
    ∧ (0 < q → (∀ c ∈ s.cart, c.id ≠ id) →
        (updateItemQuantity s id q).cart = s.cart) := by
  refine ⟨?_, ?_, ?_, ?_⟩
  · intro hq
    unfold updateItemQuantity
    rw [if_pos hq]
    refine ⟨rfl, ?_⟩
    intro c hcmem
    have := (List.mem_filter.mp hcmem).2
    simpa using this
  · intro hq hab
    unfold updateItemQuantity
    rw [if_pos hq]
    show s.cart.filter _ = s.cart
    rw [List.filter_eq_self]
    intro a ha
    simpa using hab a ha
  · intro hq i
    unfold updateItemQuantity
    rw [if_neg (not_le.mpr hq)]
    exact List.getElem?_map ..
  · intro hq hab
    unfold updateItemQuantity
    rw [if_neg (not_le.mpr hq)]
    show s.cart.map _ = s.cart
    have heq : s.cart.map (fun item =>
        if item.id = id then { item with quantity := q } else item) =
        s.cart.map (fun a => a) :=
      List.map_congr_left (fun a ha => by rw [if_neg (hab a ha)])
    rw [heq]
    exact List.map_id' s.cart

/-- Witness for C4: quantity 0 removes the single matching entry. -/
theorem updateItemQuantity_witness :
    ((0 : Int) ≤ 0
      ∧ (updateItemQuantity
          ⟨[], [], [⟨"i1", "Soup", 5, 3, "Starter"⟩], .DineIn⟩ "i1" 0).cart =
        (⟨[], [], [⟨"i1", "Soup", 5, 3, "Starter"⟩],
          .DineIn⟩ : AppState).cart.filter (fun item => item.id != "i1")
      ∧ ∀ c ∈ (updateItemQuantity
          ⟨[], [], [⟨"i1", "Soup", 5, 3, "Starter"⟩], .DineIn⟩ "i1" 0).cart,
          c.id ≠ "i1") :=
  ⟨by decide,
   (updateItemQuantity_spec ⟨[], [], [⟨"i1", "Soup", 5, 3, "Starter"⟩],
      .DineIn⟩ "i1" 0).1 (by decide)⟩

/-- No operation changes the duration or the timestamp of an order that
is already in the order list. -/
theorem op_preserves_order_fields (op : Op) (s : AppState) (i : Nat)
    (ord : Order) (h : s.orders[i]? = some ord) :
    ∃ ord' : Order, (op.apply s).orders[i]? = some ord'
      ∧ ord'.duration = ord.duration ∧ ord'.timestamp = ord.timestamp := by
  cases op with
  | setOrderType type => exact ⟨ord, h, rfl, rfl⟩
  | addToCart item =>
      refine ⟨ord, ?_, rfl, rfl⟩
      rw [(cartOp_frame (.addToCart item) s rfl).1]
      exact h
  | removeFromCart id => exact ⟨ord, h, rfl, rfl⟩
  | updateItemQuantity id quantity =>
      refine ⟨ord, ?_, rfl, rfl⟩
      rw [(cartOp_frame (.updateItemQuantity id quantity) s rfl).1]
      exact h
  | clearCart => exact ⟨ord, h, rfl, rfl⟩
  | createOrder tableId type newId now =>
      have hlt : i < s.orders.length := (List.getElem?_eq_some.mp h).1
      by_cases hc : s.cart.length = 0
      · refine ⟨ord, ?_, rfl, rfl⟩
        show (POS.createOrder s tableId type newId now).orders[i]? = some ord
        unfold POS.createOrder
        rw [if_pos hc]
        exact h
      · refine ⟨ord, ?_, rfl, rfl⟩
        show (POS.createOrder s tableId type newId now).orders[i]? = some ord
        rw [createOrder_orders s tableId type newId now hc,
          List.getElem?_append_left hlt]
        exact h
  | updateOrderStatus orderId status =>
      refine ⟨if ord.id = orderId then { ord with status := status } else ord,
        ?_, ?_, ?_⟩
      · rw [show ((Op.updateOrderStatus orderId status).apply s).orders =
            _ from updateOrderStatus_orders s orderId status,
          List.getElem?_map, h]
        rfl
      · split <;> rfl
      · split <;> rfl
  | assignChef orderId chefId =>
      refine ⟨if ord.id = orderId then { ord with chefId := chefId } else ord,
        ?_, ?_, ?_⟩
      · show (s.orders.map _)[i]? = _
        rw [List.getElem?_map, h]
        rfl
      · split <;> rfl
      · split <;> rfl
  | addTable table => exact ⟨ord, h, rfl, rfl⟩
  | updateTableStatus tableId status => exact ⟨ord, h, rfl, rfl⟩

/-- Every operation keeps all order durations at 0. -/
theorem duration_zero_step (op : Op) (s : AppState)
    (h : ∀ o ∈ s.orders, o.duration = 0) :
    ∀ o ∈ (op.apply s).orders, o.duration = 0 := by
  cases op with
  | setOrderType type => exact h
  | addToCart item =>
      rw [(cartOp_frame (.addToCart item) s rfl).1]
      exact h
  | removeFromCart id => exact h
  | updateItemQuantity id quantity =>
      rw [(cartOp_frame (.updateItemQuantity id quantity) s rfl).1]
      exact h
  | clearCart => exact h
  | createOrder tableId type newId now =>
      by_cases hc : s.cart.length = 0
      · show ∀ o ∈ (POS.createOrder s tableId type newId now).orders, _
        unfold POS.createOrder
        rw [if_pos hc]
        exact h
      · show ∀ o ∈ (POS.createOrder s tableId type newId now).orders, _
        rw [createOrder_orders s tableId type newId now hc]
        intro o ho
        rcases List.mem_append.mp ho with hmem | hmem
        · exact h o hmem
        · rw [List.mem_singleton.mp hmem]
  | updateOrderStatus orderId status =>
      rw [show ((Op.updateOrderStatus orderId status).apply s).orders =
          _ from updateOrderStatus_orders s orderId status]
      intro o ho
      rcases List.mem_map.mp ho with ⟨o', ho', rfl⟩
      have := h o' ho'
      split <;> simpa
  | assignChef orderId chefId =>
      intro o ho
      rcases List.mem_map.mp ho with ⟨o', ho', rfl⟩
      have := h o' ho'
      split <;> simpa
  | addTable table => exact h
  | updateTableStatus tableId status => exact h

/-- Running any operation sequence keeps all order durations at 0. -/
theorem duration_zero_run (ops : List Op) (s : AppState)
    (h : ∀ o ∈ s.orders, o.duration = 0) :
    ∀ o ∈ (runOps s ops).orders, o.duration = 0 := by
  induction ops generalizing s with
  | nil => exact h
  | cons op rest ih => exact ih _ (duration_zero_step op s h)

/-- C9: in every state reachable from the seeded initial state by any
sequence of operation calls, every order has duration 0 (`createOrder`
sets it to 0 and nothing changes it); moreover no single operation ever
changes the duration or timestamp of an order already in the list. -/
theorem order_duration_invariant :
    (∀ (seedTables : List Table) (ops : List Op),
        ∀ o ∈ (runOps (initState seedTables) ops).orders, o.duration = 0)
    ∧ (∀ (op : Op) (s : AppState) (i : Nat) (ord : Order),
        s.orders[i]? = some ord →
          ∃ ord' : Order, (op.apply s).orders[i]? = some ord'
            ∧ ord'.duration = ord.duration
            ∧ ord'.timestamp = ord.timestamp) :=
  ⟨fun _ ops => duration_zero_run ops _ (by simp [initState]),
   fun op s i ord h => op_preserves_order_fields op s i ord h⟩

/-- Witness for C9: a two-call run from a seeded state, plus one
field-preservation instance for `assignChef`. -/
theorem order_duration_invariant_witness :
    (∀ o ∈ (runOps (initState [⟨"01", "T1", 4, .Available⟩])
        [.addToCart ⟨"i1", "Soup", 5, 1, "Starter"⟩,
         .createOrder "01" .DineIn "#100" "12:00"]).orders, o.duration = 0)
    ∧ ((⟨[], [⟨"#100", "01", "12:00", [], .Processing, .DineIn, 0, ""⟩], [],
          .DineIn⟩ : AppState).orders[0]?
        = some ⟨"#100", "01", "12:00", [], .Processing, .DineIn, 0, ""⟩)
    ∧ (∃ ord' : Order,
        ((Op.assignChef "#100" "c1").apply
          ⟨[], [⟨"#100", "01", "12:00", [], .Processing, .DineIn, 0, ""⟩], [],
            .DineIn⟩).orders[0]? = some ord'
        ∧ ord'.duration =
            (⟨"#100", "01", "12:00", [], .Processing, .DineIn, 0, ""⟩ :
              Order).duration
        ∧ ord'.timestamp =
            (⟨"#100", "01", "12:00", [], .Processing, .DineIn, 0, ""⟩ :
              Order).timestamp) :=
  ⟨order_duration_invariant.1 [⟨"01", "T1", 4, .Available⟩]
      [.addToCart ⟨"i1", "Soup", 5, 1, "Starter"⟩,
       .createOrder "01" .DineIn "#100" "12:00"],
   by decide,
   order_duration_invariant.2 (Op.assignChef "#100" "c1")
     ⟨[], [⟨"#100", "01", "12:00", [], .Processing, .DineIn, 0, ""⟩], [],
       .DineIn⟩ 0
     ⟨"#100", "01", "12:00", [], .Processing, .DineIn, 0, ""⟩ (by decide)⟩

end POS
